import Mathlib

/-!
Shallow embedding of the `ScrollManager` singleton from `src/unnamed/part_003`
(the same `subscribe`/`unsubscribe`/`getScrollPosition` core also appears in
`src/src/dom/scrollManager.js`, without the one-time-trigger registry).

Modelling conventions:
* The host environment (`window.scrollY`, `Date.now()`, `requestAnimationFrame`,
  `setTimeout`) is external: scroll positions and clock readings are passed in
  as explicit parameters, the pending animation-frame callback is the `ticking`
  flag (the callback exists exactly while `ticking = true`), and a pending
  `setTimeout` is recorded as the absolute time at which it is due
  (`resetTimeout : Option Nat`; `clearTimeout` is `none`).  After a timeout has
  fired, the JS field still holds the expired handle, but every later use of it
  is guarded by `clearTimeout` (a no-op on an expired handle), so clearing the
  field on expiry is observationally equivalent.
* JS callbacks are identified by `Nat` ids; whether a callback throws when
  invoked is an environment `throws : Nat → Bool`.  Invocations and
  `console.error` calls are recorded in a `LogEntry` trace.
* The `Date.now()` readings taken inside one synchronous notification pass are
  modelled as a single `now` parameter for the pass.
* `scrollY`, `lastScrollY` are integers; times are `Nat` milliseconds.
-/

namespace Polyx

/-- The `scrollData` record built in `notifySubscribers`/`getScrollPosition`:
`{ y, direction, timestamp }`.  `direction` is the string `"up"` or `"down"`
produced by `detectScrollDirection`. -/
structure ScrollData where
  y : Int
  direction : String
  timestamp : Nat
deriving Repr, DecidableEq

/-- JS runtime values, to the precision the code distinguishes them
(`typeof v === 'function'`).  Function values carry a callback id. -/
inductive JSValue where
  | func (id : Nat)
  | num (n : Int)
  | str (s : String)
  | jsBool (b : Bool)
  | undefined
  | jsNull
deriving Repr, DecidableEq

/-- The JS test `typeof v === 'function'`. -/
def JSValue.isFunctionV : JSValue → Bool
  | .func _ => true
  | _ => false

/-- The per-trigger record stored in the `oneTimeTriggers` map
(`addOneTimeTrigger`, lines 280–292 of the source). -/
structure TriggerConfig where
  direction : String
  callback : Nat
  hasTriggered : Bool
  resetOnStop : Bool
  resetDelay : Nat
  /-- absolute due time of the pending `setTimeout`, `none` when no timer is pending -/
  resetTimeout : Option Nat
  requireActualScroll : Bool
  hasScrolled : Bool
  debounceInterval : Nat
  lastTriggered : Nat
  lastReset : Nat
deriving Repr, DecidableEq

/-- The options object accepted by `addOneTimeTrigger`; `none` models an
absent/undefined property, on which the destructuring default kicks in. -/
structure TriggerOptions where
  direction : Option String := none
  callback : JSValue := JSValue.undefined
  resetOnStop : Option Bool := none
  resetDelay : Option Nat := none
  requireActualScroll : Option Bool := none
  debounceInterval : Option Nat := none
deriving Repr

/-- Models `oneTimeTriggers.set(k, v)` on the insertion-ordered JS `Map`. -/
def mapSet (m : List (String × TriggerConfig)) (k : String) (v : TriggerConfig) :
    List (String × TriggerConfig) :=
  if m.any (fun e => e.1 == k) then
    m.map (fun e => if e.1 == k then (k, v) else e)
  else
    m ++ [(k, v)]

/-- Models `oneTimeTriggers.get(k)`. -/
def mapGet (m : List (String × TriggerConfig)) (k : String) : Option TriggerConfig :=
  (m.find? (fun e => e.1 == k)).map (·.2)

/-- Models `oneTimeTriggers.delete(k)`. -/
def mapDelete (m : List (String × TriggerConfig)) (k : String) :
    List (String × TriggerConfig) :=
  m.filter (fun e => e.1 != k)

/-- The private state captured by `createInstance`'s closure: the subscriber
`Set` (insertion-ordered, duplicate-free), `isRunning`, `scrollY`, `ticking`,
the `oneTimeTriggers` map, and `detectScrollDirection`'s `lastScrollY`. -/
structure ManagerState where
  subscribers : List Nat
  isRunning : Bool
  scrollY : Int
  ticking : Bool
  oneTimeTriggers : List (String × TriggerConfig)
  lastScrollY : Int
deriving Repr, DecidableEq

/-- The initial closure state of `createInstance`: empty registries, not running,
`scrollY = 0`, `ticking = false`, `lastScrollY = scrollY`. -/
def createInstance : ManagerState :=
  { subscribers := [], isRunning := false, scrollY := 0, ticking := false,
    oneTimeTriggers := [], lastScrollY := 0 }

/-- Models `start()`: attach the scroll listener (no-op when already running) and read
the initial scroll position from the host (`scrollY = window.scrollY`). -/
def start (winScrollY : Int) (s : ManagerState) : ManagerState :=
  if s.isRunning then s
  else { s with isRunning := true, scrollY := winScrollY }

/-- Models `stop()`: detach the scroll listener (no-op when not running). -/
def stop (s : ManagerState) : ManagerState :=
  if s.isRunning then { s with isRunning := false } else s

/-- Models `handleScroll()`: record the raw position, mark `hasScrolled` on every
trigger that `requireActualScroll`, and schedule one animation-frame
notification if none is pending (`ticking`). -/
def handleScroll (winScrollY : Int) (s : ManagerState) : ManagerState :=
  let s := { s with scrollY := winScrollY }
  let s := { s with oneTimeTriggers := s.oneTimeTriggers.map (fun e =>
      if e.2.requireActualScroll then (e.1, { e.2 with hasScrolled := true }) else e) }
  if !s.ticking then { s with ticking := true } else s

/-- Models `detectScrollDirection()`: compare against `lastScrollY` and advance it.
`scrollY > lastScrollY` is `"down"`; everything else — equality included —
is `"up"`. -/
def detectScrollDirection (s : ManagerState) : String × ManagerState :=
  let direction := if s.scrollY > s.lastScrollY then "down" else "up"
  (direction, { s with lastScrollY := s.scrollY })

/-- Observable events of one notification pass: callback invocations (with the
sample they received) and `console.error` output. -/
inductive LogEntry where
  /-- a persistent subscriber was invoked with `data` -/
  | subCall (cb : Nat) (data : ScrollData)
  /-- the `console.error` of the subscriber catch handler -/
  | subError (cb : Nat)
  /-- a one-time trigger's callback was invoked with `data` -/
  | triggerCall (id : String) (cb : Nat) (data : ScrollData)
  /-- the `console.error` of the trigger catch handler -/
  | triggerError (id : String)
  /-- the `console.error` for a rejected argument -/
  | warn (msg : String)
deriving Repr, DecidableEq

/-- One iteration of the `oneTimeTriggers.forEach` body in
`processOneTimeTriggers` (source lines 118–194).  `direction`, `hasTriggered`,
`hasScrolled` are destructured snapshots taken at entry; `minTriggerInterval`
is the hardcoded 300 ms constant of line 123 (note: NOT the trigger's stored
`debounceInterval`).  The `if (!triggerConfig.lastReset) lastReset = 0`
initialisation is a no-op here since `lastReset : Nat` starts at 0.
JS `resetOnStop && resetDelay` tests `resetDelay` for truthiness, hence the
`resetDelay != 0`. -/
def processTrigger (throws : Nat → Bool) (scrollData : ScrollData) (now : Nat)
    (id : String) (tc : TriggerConfig) : TriggerConfig × List LogEntry :=
  let direction := tc.direction
  let hasTriggered := tc.hasTriggered
  let hasScrolled := tc.hasScrolled
  let minTriggerInterval : Nat := 300
  let fired :=
    if !hasTriggered && hasScrolled && (scrollData.direction == direction) then
      let log :=
        if throws tc.callback then
          [LogEntry.triggerCall id tc.callback scrollData, LogEntry.triggerError id]
        else
          [LogEntry.triggerCall id tc.callback scrollData]
      let tc := { tc with hasTriggered := true, lastTriggered := now }
      let tc :=
        if tc.resetOnStop && tc.resetDelay != 0 then
          { tc with resetTimeout := some (now + tc.resetDelay) }
        else tc
      (tc, log)
    else
      let tc :=
        if tc.resetOnStop && tc.resetDelay != 0 then
          { tc with resetTimeout := some (now + tc.resetDelay) }
        else tc
      (tc, [])
  let tc := fired.1
  let canReset := decide (now - tc.lastReset > minTriggerInterval)
  let tc :=
    if scrollData.direction == "down" && direction == "up" && hasTriggered && canReset then
      { tc with hasTriggered := false, lastReset := now, resetTimeout := none }
    else tc
  let tc :=
    if scrollData.direction == "up" && direction == "down" && hasTriggered && canReset then
      { tc with hasTriggered := false, lastReset := now, resetTimeout := none }
    else tc
  (tc, fired.2)

/-- Models `processOneTimeTriggers(scrollData)`: run the `forEach` body on every
registered trigger, in registration order.  (The `upTriggers`/`downTriggers`
maps built at the top of the source function are never read afterwards, so
they do not appear in the model.) -/
def processOneTimeTriggers (throws : Nat → Bool) (scrollData : ScrollData) (now : Nat)
    (s : ManagerState) : ManagerState × List LogEntry :=
  let processed := s.oneTimeTriggers.map (fun e => (e.1, processTrigger throws scrollData now e.1 e.2))
  ({ s with oneTimeTriggers := processed.map (fun e => (e.1, e.2.1)) },
   (processed.map (fun e => e.2.2)).flatten)

/-- Models `notifySubscribers()`: build one `scrollData` sample (direction against the
last *notified* position), invoke every persistent subscriber under
`try`/`catch`, then process the one-time triggers with the same sample. -/
def notifySubscribers (throws : Nat → Bool) (now : Nat) (s : ManagerState) :
    ManagerState × List LogEntry :=
  let d := detectScrollDirection s
  let s := d.2
  let scrollData : ScrollData := { y := s.scrollY, direction := d.1, timestamp := now }
  let subLog := (s.subscribers.map (fun cb =>
      if throws cb then [LogEntry.subCall cb scrollData, LogEntry.subError cb]
      else [LogEntry.subCall cb scrollData])).flatten
  let pt := processOneTimeTriggers throws scrollData now s
  (pt.1, subLog ++ pt.2)

/-- The value returned by `subscribe`: either the real unsubscribe closure
`() => unsubscribe(callback)` or the no-op `() => {}` handed back on a
rejected argument. -/
inductive UnsubResult where
  | noop
  | unsub (cb : Nat)
deriving Repr, DecidableEq

/-- Models `subscribe(callback)`: reject non-functions (log, return the no-op
unsubscriber), otherwise add to the `Set` and start the listener when this is
the first registration (`subscribers.size === 1 && oneTimeTriggers.size === 0`). -/
def subscribe (winScrollY : Int) (v : JSValue) (s : ManagerState) :
    UnsubResult × List LogEntry × ManagerState :=
  match v with
  | .func cb =>
    let subs := if s.subscribers.contains cb then s.subscribers else s.subscribers ++ [cb]
    let s := { s with subscribers := subs }
    let s :=
      if subs.length == 1 && s.oneTimeTriggers.length == 0 then start winScrollY s else s
    (.unsub cb, [], s)
  | _ => (.noop, [LogEntry.warn "Scroll subscriber must be a function"], s)

/-- Models `unsubscribe(callback)`: remove from the `Set`; stop the listener when both
registries are now empty. -/
def unsubscribe (cb : Nat) (s : ManagerState) : ManagerState :=
  let s := { s with subscribers := s.subscribers.filter (fun x => x != cb) }
  if s.subscribers.length == 0 && s.oneTimeTriggers.length == 0 then stop s else s

/-- Invoking the value `subscribe` returned. -/
def applyUnsub (u : UnsubResult) (s : ManagerState) : ManagerState :=
  match u with
  | .noop => s
  | .unsub cb => unsubscribe cb s

/-- The trigger id string `` `trigger_${Date.now()}_${Math.floor(Math.random()*1000)}` ``;
`now` and `rand` are the host's clock and RNG readings. -/
def makeTriggerId (now rand : Nat) : String :=
  "trigger_" ++ toString now ++ "_" ++ toString rand

/-- Models `addOneTimeTrigger(options)`: apply the destructuring defaults
(`direction = 'down'`, `resetOnStop = true`, `resetDelay = 1500`,
`requireActualScroll = true`, `debounceInterval = 300`), reject a non-function
callback with the `null` sentinel, otherwise store the fresh trigger record
under a generated id and start the listener when this is the first
registration. -/
def addOneTimeTrigger (winScrollY : Int) (opts : TriggerOptions) (now rand : Nat)
    (s : ManagerState) : Option String × List LogEntry × ManagerState :=
  let requireActualScroll := opts.requireActualScroll.getD true
  match opts.callback with
  | .func cb =>
    let triggerId := makeTriggerId now rand
    let tc : TriggerConfig :=
      { direction := opts.direction.getD "down"
        callback := cb
        hasTriggered := false
        resetOnStop := opts.resetOnStop.getD true
        resetDelay := opts.resetDelay.getD 1500
        resetTimeout := none
        requireActualScroll := requireActualScroll
        hasScrolled := !requireActualScroll
        debounceInterval := opts.debounceInterval.getD 300
        lastTriggered := 0
        lastReset := 0 }
    let s := { s with oneTimeTriggers := mapSet s.oneTimeTriggers triggerId tc }
    let s :=
      if !s.isRunning && (s.subscribers.length == 0 && s.oneTimeTriggers.length == 1) then
        start winScrollY s
      else s
    (some triggerId, [], s)
  | _ => (none, [LogEntry.warn "Trigger callback must be a function"], s)

/-- Models `removeOneTimeTrigger(triggerId)`: clear any pending reset timer, delete
the entry, and stop the listener when both registries became empty. -/
def removeOneTimeTrigger (triggerId : String) (s : ManagerState) : ManagerState :=
  let s := { s with oneTimeTriggers := mapDelete s.oneTimeTriggers triggerId }
  if s.subscribers.length == 0 && s.oneTimeTriggers.length == 0 then stop s else s

/-- Models `resetOneTimeTrigger(triggerId)`: force `hasTriggered = false` and cancel
the pending reset timer, leaving the trigger registered. -/
def resetOneTimeTrigger (triggerId : String) (s : ManagerState) : ManagerState :=
  { s with oneTimeTriggers := s.oneTimeTriggers.map (fun e =>
      if e.1 == triggerId then
        (e.1, { e.2 with hasTriggered := false, resetTimeout := none })
      else e) }

/-- Models `resetAllOneTimeTriggers()`. -/
def resetAllOneTimeTriggers (s : ManagerState) : ManagerState :=
  { s with oneTimeTriggers := s.oneTimeTriggers.map (fun e =>
      (e.1, { e.2 with hasTriggered := false, resetTimeout := none })) }

/-- Models `getScrollPosition()`: build a sample, running `detectScrollDirection` on
the shared state (so it advances the same `lastScrollY` the notifications
compare against). -/
def getScrollPosition (now : Nat) (s : ManagerState) : ScrollData × ManagerState :=
  let d := detectScrollDirection s
  ({ y := d.2.scrollY, direction := d.1, timestamp := now }, d.2)

/-- The body of the `setTimeout` scheduled in `processOneTimeTriggers`
(lines 151–154 / 162–165): `hasTriggered = false; lastReset = Date.now()`. -/
def fireResetTimeout (triggerId : String) (now : Nat) (s : ManagerState) : ManagerState :=
  { s with oneTimeTriggers := s.oneTimeTriggers.map (fun e =>
      if e.1 == triggerId then
        (e.1, { e.2 with hasTriggered := false, lastReset := now, resetTimeout := none })
      else e) }

/-- Externally observable events driving one manager instance: the public API
calls plus the host-driven callbacks (a raw scroll event, the pending
animation-frame callback, a due reset timer firing). -/
inductive Event where
  | subscribeEv (winScrollY : Int) (v : JSValue)
  | unsubscribeEv (cb : Nat)
  | addTriggerEv (winScrollY : Int) (opts : TriggerOptions) (now rand : Nat)
  | removeTriggerEv (id : String)
  | resetTriggerEv (id : String)
  | resetAllEv
  /-- a raw `scroll` DOM event; delivered only while the listener is attached -/
  | rawScroll (winScrollY : Int)
  /-- the `requestAnimationFrame` callback runs; pending iff `ticking` -/
  | frame (now : Nat)
  /-- a scheduled reset timer fires; only a pending, due timer does anything -/
  | timerExpire (id : String) (now : Nat)
  | getScrollPositionEv (now : Nat)

/-- Single-step interpreter for `Event`. -/
def step (throws : Nat → Bool) (s : ManagerState) : Event → ManagerState × List LogEntry
  | .subscribeEv w v =>
    let r := subscribe w v s
    (r.2.2, r.2.1)
  | .unsubscribeEv cb => (unsubscribe cb s, [])
  | .addTriggerEv w opts now rand =>
    let r := addOneTimeTrigger w opts now rand s
    (r.2.2, r.2.1)
  | .removeTriggerEv id => (removeOneTimeTrigger id s, [])
  | .resetTriggerEv id => (resetOneTimeTrigger id s, [])
  | .resetAllEv => (resetAllOneTimeTriggers s, [])
  | .rawScroll w => (if s.isRunning then handleScroll w s else s, [])
  | .frame now =>
    if s.ticking then
      let r := notifySubscribers throws now s
      ({ r.1 with ticking := false }, r.2)
    else (s, [])
  | .timerExpire id now =>
    match mapGet s.oneTimeTriggers id with
    | some tc =>
      match tc.resetTimeout with
      | some due => if due ≤ now then (fireResetTimeout id now s, []) else (s, [])
      | none => (s, [])
    | none => (s, [])
  | .getScrollPositionEv now => ((getScrollPosition now s).2, [])

/-- Run a sequence of events, accumulating the log. -/
def run (throws : Nat → Bool) (s : ManagerState) : List Event → ManagerState × List LogEntry
  | [] => (s, [])
  | e :: es =>
    let r := step throws s e
    let rest := run throws r.1 es
    (rest.1, r.2 ++ rest.2)

/-- Number of times the trigger registered under `id` had its callback
invoked, according to the log. -/
def triggerIdCallCount (id : String) (log : List LogEntry) : Nat :=
  (log.filter (fun e => match e with
    | .triggerCall tid _ _ => tid == id
    | _ => false)).length

/-- Number of times subscriber `cb` was invoked, according to the log. -/
def subCallCount (cb : Nat) (log : List LogEntry) : Nat :=
  (log.filter (fun e => match e with
    | .subCall c _ => c == cb
    | _ => false)).length

/-- The log with the `console.error` entries removed: exactly the callback
invocations (deliveries) of a pass. -/
def deliveries (log : List LogEntry) : List LogEntry :=
  log.filter (fun e => match e with
    | .subCall _ _ => true
    | .triggerCall _ _ _ => true
    | _ => false)

/-- Trigger options used in the C7 scenario: a `"down"` trigger with
`requireActualScroll: false`, `resetOnStop: false`. -/
def scenarioDownOpts : TriggerOptions :=
  { direction := some "down", callback := JSValue.func 7,
    resetOnStop := some false, requireActualScroll := some false }

/-- The id `addOneTimeTrigger` generates in the C7 scenario
(clock reading 5, RNG reading 0). -/
def scenarioDownId : String := makeTriggerId 5 0

/-- C7 scenario, first half: register the trigger, then one `"down"`
notification (raw scroll to 10, then the frame callback). -/
def scenarioDownEvents1 : List Event :=
  [Event.addTriggerEv 0 scenarioDownOpts 5 0, Event.rawScroll 10, Event.frame 20]

/-- C7 scenario, both notifications: a second `"down"` notification follows
(raw scroll to 25, then the frame callback). -/
def scenarioDownEvents2 : List Event :=
  scenarioDownEvents1 ++ [Event.rawScroll 25, Event.frame 30]

/-- A callback environment in which no callback throws. -/
def noThrow : Nat → Bool := fun _ => false

/-- Trigger options for the C1 failing input: a `"down"` trigger with
`debounceInterval = 1000`, `resetOnStop = false`, `requireActualScroll = false`. -/
def debounceOpts : TriggerOptions :=
  { direction := some "down", callback := JSValue.func 3,
    resetOnStop := some false, requireActualScroll := some false,
    debounceInterval := some 1000 }

/-- The id generated for the C1 failing input (clock 900, RNG 1). -/
def debounceId : String := makeTriggerId 900 1

/-- C1 failing input: the trigger fires at t=1000; an `"up"` reversal at
t=2000 re-arms it (2000 ms ≥ the configured 1000 ms debounce, so this re-arm
is also allowed by the claim); it fires again at t=2100; an `"up"` reversal at
t=2500 — only 500 ms after the last reset, i.e. before the configured
`debounceInterval` of 1000 ms has elapsed — re-arms it again, and it fires a
third time at t=2600. -/
def debounceEvents : List Event :=
  [Event.addTriggerEv 0 debounceOpts 900 1,
   Event.rawScroll 10, Event.frame 1000,
   Event.rawScroll 5,  Event.frame 2000,
   Event.rawScroll 15, Event.frame 2100,
   Event.rawScroll 8,  Event.frame 2500,
   Event.rawScroll 20, Event.frame 2600]

/-- A state whose raw position has not moved since the last direction
computation (`scrollY = lastScrollY = 3`). -/
def stationaryState : ManagerState :=
  { subscribers := [], isRunning := false, scrollY := 3, ticking := false,
    oneTimeTriggers := [], lastScrollY := 3 }

/-- The `scrollData` sample a notification pass starting from state `s` at
time `now` builds and delivers. -/
def sampleAt (now : Nat) (s : ManagerState) : ScrollData :=
  { y := s.scrollY, direction := (detectScrollDirection s).1, timestamp := now }

/-- A state with two persistent subscribers (ids 1 and 2) and a pending
frame. -/
def twoSubscriberState : ManagerState :=
  { subscribers := [1, 2], isRunning := true, scrollY := 4, ticking := true,
    oneTimeTriggers := [], lastScrollY := 0 }

/-- A callback environment in which exactly subscriber 1 throws. -/
def firstThrows : Nat → Bool := fun cb => cb == 1

/-- The record `addOneTimeTrigger` stores for a valid callback `cb`, with the
destructuring defaults applied: `direction = "down"`, `resetOnStop = true`,
`resetDelay = 1500`, `requireActualScroll = true`, `debounceInterval = 300`;
`hasTriggered` starts false, `hasScrolled` starts at the negation of
`requireActualScroll`, and no reset timer is pending. -/
def freshTrigger (opts : TriggerOptions) (cb : Nat) : TriggerConfig :=
  { direction := opts.direction.getD "down"
    callback := cb
    hasTriggered := false
    resetOnStop := opts.resetOnStop.getD true
    resetDelay := opts.resetDelay.getD 1500
    resetTimeout := none
    requireActualScroll := opts.requireActualScroll.getD true
    hasScrolled := !(opts.requireActualScroll.getD true)
    debounceInterval := opts.debounceInterval.getD 300
    lastTriggered := 0
    lastReset := 0 }

/-- Options for the C8 witness: only a callback, everything else defaulted. -/
def defaultOpts : TriggerOptions := { callback := JSValue.func 5 }

/-- Whether either registry (subscribers, one-time triggers) is nonempty. -/
def registriesNonempty (s : ManagerState) : Bool :=
  !s.subscribers.isEmpty || !s.oneTimeTriggers.isEmpty

/-- The listener-lifecycle invariant: the scroll listener is attached exactly
while a subscriber or a trigger is registered. -/
def listenerInvariant (s : ManagerState) : Prop :=
  s.isRunning = registriesNonempty s

/-- Events under which a not-yet-scrolled trigger registered at `id` stays
ineligible: anything except a raw scroll event (which marks `hasScrolled`) or
a registration that happens to generate the same id. -/
def eventKeepsUnscrolled (id : String) : Event → Prop
  | .rawScroll _ => False
  | .addTriggerEv _ _ now rand => makeTriggerId now rand ≠ id
  | _ => True

/-- Every entry registered under `id` requires an actual scroll that has not
yet been observed. -/
def unscrolledGateL (id : String) (m : List (String × TriggerConfig)) : Prop :=
  ∀ e ∈ m, e.1 = id → e.2.requireActualScroll = true ∧ e.2.hasScrolled = false

/-- The gate `unscrolledGateL` on a manager state's trigger registry. -/
def unscrolledGate (id : String) (s : ManagerState) : Prop :=
  unscrolledGateL id s.oneTimeTriggers

/-- The sample C2 predicts for a coalesced batch of raw scroll events ending
at position `p`: direction is computed against the baseline `base` recorded at
the previous notification, not against any intermediate raw position. -/
def expectedSample (p base : Int) (now : Nat) : ScrollData :=
  { y := p, direction := if p > base then "down" else "up", timestamp := now }

/-- C1: the claim fails on the code — `processOneTimeTriggers` debounces
direction-reversal re-arms with the hardcoded `minTriggerInterval = 300` ms
(line 123) and never reads the trigger's stored `debounceInterval`.  For a
trigger configured with `debounceIntervalMs = 1000` (and no other reset path:
`resetOnStop = false`, no explicit resets), the run `debounceEvents` invokes
the callback three times: after its second firing the trigger's last reset is
at t = 2000, the opposite-direction notification at t = 2500 arrives only
500 ms < 1000 ms later, yet it re-arms the trigger, which then fires again at
t = 2600.  Under the claim, the third invocation is impossible.  The stored
`debounceInterval = 1000` of the trigger is confirmed by the final conjunct. -/
theorem C1_debounce_uses_hardcoded_constant :
    triggerIdCallCount debounceId (run noThrow createInstance debounceEvents).2 = 3
    ∧ (mapGet (run noThrow createInstance (List.take 7 debounceEvents)).1.oneTimeTriggers
        debounceId).map (fun tc => tc.lastReset) = some 2000
    ∧ (mapGet (run noThrow createInstance debounceEvents).1.oneTimeTriggers
        debounceId).map (fun tc => tc.debounceInterval) = some 1000 := by
  refine ⟨by decide, by decide, by decide⟩

/-- C7: a `"down"` trigger registered with `requireActualScroll: false` and
`resetOnStop: false` fires exactly once on the first `"down"` notification and
is not invoked again on a second `"down"` notification: no reset path is
configured, so it stays in the fired state (`hasTriggered = true`). -/
theorem C7_down_trigger_fires_once :
    triggerIdCallCount scenarioDownId (run noThrow createInstance scenarioDownEvents1).2 = 1
    ∧ triggerIdCallCount scenarioDownId (run noThrow createInstance scenarioDownEvents2).2 = 1
    ∧ (mapGet (run noThrow createInstance scenarioDownEvents2).1.oneTimeTriggers
        scenarioDownId).map (fun tc => tc.hasTriggered) = some true := by
  refine ⟨by decide, by decide, by decide⟩

/-- C3: `subscribe` with a non-invocable value logs a warning, returns the
no-op unsubscribe function (whose invocation changes nothing), and leaves the
whole state — registry included — unchanged; `addOneTimeTrigger` with a
missing or non-invocable callback logs and returns the `null` sentinel with no
registration.  Both operations return normally (the model functions are total:
nothing is thrown to the caller). -/
theorem C3_invalid_callbacks_rejected (w : Int) (v : JSValue) (s : ManagerState)
    (opts : TriggerOptions) (now rand : Nat)
    (hv : v.isFunctionV = false) (hc : opts.callback.isFunctionV = false) :
    subscribe w v s
      = (UnsubResult.noop, [LogEntry.warn "Scroll subscriber must be a function"], s)
    ∧ (∀ s', applyUnsub UnsubResult.noop s' = s')
    ∧ addOneTimeTrigger w opts now rand s
      = (none, [LogEntry.warn "Trigger callback must be a function"], s) := by
  refine ⟨?_, fun s' => rfl, ?_⟩
  · cases v with
    | func cb => simp [JSValue.isFunctionV] at hv
    | num n => rfl
    | str t => rfl
    | jsBool b => rfl
    | undefined => rfl
    | jsNull => rfl
  · cases hcb : opts.callback with
    | func cb => rw [hcb] at hc; simp [JSValue.isFunctionV] at hc
    | num n => simp only [addOneTimeTrigger, hcb]
    | str t => simp only [addOneTimeTrigger, hcb]
    | jsBool b => simp only [addOneTimeTrigger, hcb]
    | undefined => simp only [addOneTimeTrigger, hcb]
    | jsNull => simp only [addOneTimeTrigger, hcb]

/-- Witness for C3 at the spec's own scenario `subscribe(42)`, and
`addOneTimeTrigger({})` with the callback absent. -/
theorem C3_invalid_callbacks_rejected_witness :
    subscribe 0 (JSValue.num 42) createInstance
      = (UnsubResult.noop, [LogEntry.warn "Scroll subscriber must be a function"], createInstance)
    ∧ addOneTimeTrigger 0 {} 0 0 createInstance
      = (none, [LogEntry.warn "Trigger callback must be a function"], createInstance) :=
  ⟨(C3_invalid_callbacks_rejected 0 (JSValue.num 42) createInstance {} 0 0
      (by decide) (by decide)).1,
   (C3_invalid_callbacks_rejected 0 (JSValue.num 42) createInstance {} 0 0
      (by decide) (by decide)).2.2⟩

/-- C9: `detectScrollDirection` (as used by `getScrollPosition`) yields only
`"up"` or `"down"`; an unchanged position — in particular a second consecutive
`getScrollPosition` call with no scroll in between — is classified `"up"`;
and `getScrollPosition` advances the shared `lastScrollY` baseline to the
current position, so the next direction computation compares against the
position observed at the `getScrollPosition` call. -/
theorem C9_equal_positions_report_up (s : ManagerState) (now now2 : Nat) (p : Int) :
    ((getScrollPosition now s).1.direction = "up"
      ∨ (getScrollPosition now s).1.direction = "down")
    ∧ (s.scrollY = s.lastScrollY → (getScrollPosition now s).1.direction = "up")
    ∧ (getScrollPosition now2 (getScrollPosition now s).2).1.direction = "up"
    ∧ (getScrollPosition now s).2.lastScrollY = s.scrollY
    ∧ (detectScrollDirection { (getScrollPosition now s).2 with scrollY := p }).1
        = (if p > s.scrollY then "down" else "up") := by
  unfold getScrollPosition detectScrollDirection
  refine ⟨?_, ?_, ?_, rfl, rfl⟩
  · by_cases h : s.scrollY > s.lastScrollY <;> simp [h]
  · intro h
    simp [h]
  · simp

/-- Witness for C9: with `scrollY = lastScrollY = 3` the reported direction is
`"up"`. -/
theorem C9_equal_positions_report_up_witness :
    (getScrollPosition 0 stationaryState).1.direction = "up" :=
  (C9_equal_positions_report_up stationaryState 0 1 5).2.1 rfl

theorem processTrigger_fst_throws_indep (throws throws2 : Nat → Bool) (d : ScrollData)
    (now : Nat) (id : String) (tc : TriggerConfig) :
    (processTrigger throws d now id tc).1 = (processTrigger throws2 d now id tc).1 := by
  by_cases h : (!tc.hasTriggered && tc.hasScrolled && (d.direction == tc.direction)) <;>
    by_cases h2 : throws tc.callback <;> by_cases h3 : throws2 tc.callback <;>
      simp [processTrigger, h, h2, h3]

theorem processTrigger_deliveries_throws_indep (throws throws2 : Nat → Bool) (d : ScrollData)
    (now : Nat) (id : String) (tc : TriggerConfig) :
    deliveries (processTrigger throws d now id tc).2
      = deliveries (processTrigger throws2 d now id tc).2 := by
  by_cases h : (!tc.hasTriggered && tc.hasScrolled && (d.direction == tc.direction)) <;>
    by_cases h2 : throws tc.callback <;> by_cases h3 : throws2 tc.callback <;>
      simp [processTrigger, deliveries, h, h2, h3]

theorem deliveries_append (l1 l2 : List LogEntry) :
    deliveries (l1 ++ l2) = deliveries l1 ++ deliveries l2 := by
  simp [deliveries]

theorem deliveries_flatten (L : List (List LogEntry)) :
    deliveries L.flatten = (L.map deliveries).flatten := by
  induction L with
  | nil => rfl
  | cons l ls ih =>
    simp only [List.flatten_cons, deliveries_append, ih, List.map_cons]

theorem processOneTimeTriggers_fst_throws_indep (throws throws2 : Nat → Bool)
    (d : ScrollData) (now : Nat) (s : ManagerState) :
    (processOneTimeTriggers throws d now s).1 = (processOneTimeTriggers throws2 d now s).1 := by
  unfold processOneTimeTriggers
  simp only [List.map_map]
  congr 1
  exact List.map_congr_left (fun e _ => by
    simp [processTrigger_fst_throws_indep throws throws2 d now e.1 e.2])

theorem processOneTimeTriggers_deliveries_throws_indep (throws throws2 : Nat → Bool)
    (d : ScrollData) (now : Nat) (s : ManagerState) :
    deliveries (processOneTimeTriggers throws d now s).2
      = deliveries (processOneTimeTriggers throws2 d now s).2 := by
  unfold processOneTimeTriggers
  simp only [deliveries_flatten, List.map_map]
  congr 1
  exact List.map_congr_left (fun e _ => by
    simp [processTrigger_deliveries_throws_indep throws throws2 d now e.1 e.2])

/-- C4: a throwing subscriber or trigger callback is caught where it is
invoked and changes nothing about the rest of the pass: the deliveries of the
pass (every callback invocation, with its sample) and the resulting state are
the same under any two throw behaviours, and every registered subscriber —
whatever the others do — receives the pass's sample. -/
theorem C4_callback_failure_isolated (throws throws2 : Nat → Bool) (now : Nat)
    (s : ManagerState) :
    deliveries (notifySubscribers throws now s).2
      = deliveries (notifySubscribers throws2 now s).2
    ∧ (notifySubscribers throws now s).1 = (notifySubscribers throws2 now s).1
    ∧ (∀ cb ∈ s.subscribers,
        LogEntry.subCall cb (sampleAt now s) ∈ (notifySubscribers throws now s).2) := by
  refine ⟨?_, ?_, ?_⟩
  · unfold notifySubscribers
    simp only [deliveries_append, deliveries_flatten, List.map_map]
    rw [processOneTimeTriggers_deliveries_throws_indep throws throws2]
    congr 1
    exact congrArg List.flatten (List.map_congr_left (fun cb _ => by
      by_cases h2 : throws cb <;> by_cases h3 : throws2 cb <;> simp [deliveries, h2, h3]))
  · unfold notifySubscribers
    simp only
    exact processOneTimeTriggers_fst_throws_indep throws throws2 _ now _
  · intro cb hcb
    unfold notifySubscribers
    simp only [List.mem_append]
    left
    rw [List.mem_flatten]
    refine ⟨if throws cb then [LogEntry.subCall cb (sampleAt now s), LogEntry.subError cb]
        else [LogEntry.subCall cb (sampleAt now s)], ?_, ?_⟩
    · exact List.mem_map.mpr ⟨cb, hcb, by
        by_cases h : throws cb <;> simp [h, sampleAt, detectScrollDirection]⟩
    · by_cases h : throws cb <;> simp [h]

/-- Witness for C4, at the spec's scenario: two subscribers, the first throws,
the second still receives the pass's sample. -/
theorem C4_callback_failure_isolated_witness :
    LogEntry.subCall 2 (sampleAt 9 twoSubscriberState)
      ∈ (notifySubscribers firstThrows 9 twoSubscriberState).2 :=
  (C4_callback_failure_isolated firstThrows noThrow 9 twoSubscriberState).2.2 2 (by decide)

theorem find?_map_replace (m : List (String × TriggerConfig)) (k : String) (v : TriggerConfig)
    (h : m.any (fun e => e.1 == k) = true) :
    (m.map (fun e => if e.1 == k then (k, v) else e)).find? (fun e => e.1 == k)
      = some (k, v) := by
  induction m with
  | nil => simp at h
  | cons e es ih =>
    rw [List.map_cons]
    by_cases hek : (e.1 == k : Bool)
    · rw [if_pos hek]
      exact List.find?_cons_of_pos _ (by simp)
    · rw [if_neg (by simp_all), List.find?_cons_of_neg _ (by simp_all)]
      refine ih ?_
      simp only [List.any_cons, hek, Bool.false_or] at h
      exact h

theorem mapGet_mapSet_self (m : List (String × TriggerConfig)) (k : String)
    (v : TriggerConfig) :
    mapGet (mapSet m k v) k = some v := by
  unfold mapSet
  by_cases h : m.any (fun e => e.1 == k) = true
  · rw [if_pos h]
    unfold mapGet
    rw [find?_map_replace m k v h]
    rfl
  · rw [if_neg h]
    unfold mapGet
    rw [List.find?_append]
    have hnone : m.find? (fun e => e.1 == k) = none := by
      rw [List.find?_eq_none]
      intro e he
      intro hek
      exact h (List.any_eq_true.mpr ⟨e, he, hek⟩)
    simp [hnone]

theorem mapGet_mapDelete_self (m : List (String × TriggerConfig)) (k : String) :
    mapGet (mapDelete m k) k = none := by
  have h : (m.filter (fun e => e.1 != k)).find? (fun e => e.1 == k) = none := by
    rw [List.find?_eq_none]
    intro e he hek
    have := (List.mem_filter.mp he).2
    simp [hek] at this
    exact this (by simpa using hek)
  unfold mapGet mapDelete
  rw [h]
  rfl

theorem mapGet_map_keyPreserving (m : List (String × TriggerConfig)) (k : String)
    (g : String × TriggerConfig → String × TriggerConfig)
    (hkey : ∀ e, (g e).1 = e.1) :
    mapGet (m.map g) k = (mapGet m k).map (fun tc => (g (k, tc)).2) := by
  induction m with
  | nil => rfl
  | cons e es ih =>
    rw [List.map_cons]
    by_cases hek : (e.1 == k : Bool)
    · have he1 : e.1 = k := by simpa using hek
      unfold mapGet
      rw [List.find?_cons_of_pos _ (by simp [hkey, he1]),
        List.find?_cons_of_pos _ (by simp [he1])]
      have he : e = (k, e.2) := by rw [← he1]
      rw [he]
      rfl
    · unfold mapGet
      rw [List.find?_cons_of_neg _ (by simp [hkey]; simp_all),
        List.find?_cons_of_neg _ (by simp_all)]
      exact ih

theorem start_oneTimeTriggers (w : Int) (s : ManagerState) :
    (start w s).oneTimeTriggers = s.oneTimeTriggers := by
  unfold start
  split <;> rfl

theorem stop_oneTimeTriggers (s : ManagerState) :
    (stop s).oneTimeTriggers = s.oneTimeTriggers := by
  unfold stop
  split <;> rfl

/-- C8: for any invocable callback, `addOneTimeTrigger` returns the generated
identifier, the registered record carries the recognized options with their
defaults (`direction` "down", `resetOnStop` true, `resetDelay` 1500,
`requireActualScroll` true, `debounceInterval` 300), and the identifier is
usable with `removeOneTimeTrigger` (the entry disappears) and
`resetOneTimeTrigger` (the entry stays, re-armed with its timer cancelled). -/
theorem C8_addOneTimeTrigger_config (w : Int) (opts : TriggerOptions) (now rand : Nat)
    (s : ManagerState) (cb : Nat) (hcb : opts.callback = JSValue.func cb) :
    (addOneTimeTrigger w opts now rand s).1 = some (makeTriggerId now rand)
    ∧ mapGet (addOneTimeTrigger w opts now rand s).2.2.oneTimeTriggers
        (makeTriggerId now rand) = some (freshTrigger opts cb)
    ∧ (∀ s', mapGet (removeOneTimeTrigger (makeTriggerId now rand) s').oneTimeTriggers
        (makeTriggerId now rand) = none)
    ∧ (∀ s' tc, mapGet s'.oneTimeTriggers (makeTriggerId now rand) = some tc →
        mapGet (resetOneTimeTrigger (makeTriggerId now rand) s').oneTimeTriggers
            (makeTriggerId now rand)
          = some { tc with hasTriggered := false, resetTimeout := none }) := by
  refine ⟨?_, ?_, ?_, ?_⟩
  · simp only [addOneTimeTrigger, hcb]
  · simp only [addOneTimeTrigger, hcb]
    split
    · rw [start_oneTimeTriggers]
      exact mapGet_mapSet_self _ _ _
    · exact mapGet_mapSet_self _ _ _
  · intro s'
    unfold removeOneTimeTrigger
    dsimp only
    split
    · rw [stop_oneTimeTriggers]
      exact mapGet_mapDelete_self _ _
    · exact mapGet_mapDelete_self _ _
  · intro s' tc htc
    unfold resetOneTimeTrigger
    rw [mapGet_map_keyPreserving _ _ _ (fun e => by dsimp only; split <;> rfl), htc]
    simp

/-- Witness for C8 at a concrete registration. -/
theorem C8_addOneTimeTrigger_config_witness :
    (addOneTimeTrigger 0 defaultOpts 2 3 createInstance).1 = some (makeTriggerId 2 3)
    ∧ mapGet (addOneTimeTrigger 0 defaultOpts 2 3 createInstance).2.2.oneTimeTriggers
        (makeTriggerId 2 3) = some (freshTrigger defaultOpts 5) :=
  ⟨(C8_addOneTimeTrigger_config 0 defaultOpts 2 3 createInstance 5 rfl).1,
   (C8_addOneTimeTrigger_config 0 defaultOpts 2 3 createInstance 5 rfl).2.1⟩

theorem start_isRunning (w : Int) (s : ManagerState) : (start w s).isRunning = true := by
  unfold start
  split
  · assumption
  · rfl

theorem stop_isRunning (s : ManagerState) : (stop s).isRunning = false := by
  unfold stop
  split
  · rfl
  · simp_all

theorem start_subscribers (w : Int) (s : ManagerState) :
    (start w s).subscribers = s.subscribers := by
  unfold start
  split <;> rfl

theorem stop_subscribers (s : ManagerState) : (stop s).subscribers = s.subscribers := by
  unfold stop
  split <;> rfl

theorem subscribe_preserves_listenerInvariant (w : Int) (v : JSValue) (s : ManagerState)
    (h : listenerInvariant s) : listenerInvariant (subscribe w v s).2.2 := by
  cases v with
  | func cb =>
    unfold listenerInvariant registriesNonempty at h ⊢
    unfold subscribe
    dsimp only
    by_cases hc : s.subscribers.contains cb <;>
      simp only [hc, if_true, if_false, Bool.false_eq_true, ite_true, ite_false]
    · split
      · rw [start_isRunning, start_subscribers, start_oneTimeTriggers]
        dsimp only
        have : s.subscribers ≠ [] := by
          intro hnil
          rw [hnil] at hc
          simp at hc
        simp [List.isEmpty_iff, this]
      · dsimp only
        rw [h]
    · split
      · rw [start_isRunning, start_subscribers, start_oneTimeTriggers]
        dsimp only
        simp [List.isEmpty_iff]
      · rename_i hcond
        dsimp only
        rw [h]
        cases hs : s.subscribers with
        | nil =>
          rw [hs] at hcond
          cases ht : s.oneTimeTriggers with
          | nil => rw [ht] at hcond; simp at hcond
          | cons t ts => simp [ht, List.isEmpty_iff]
        | cons a as => simp [hs, List.isEmpty_iff]
  | num n => exact h
  | str t => exact h
  | jsBool b => exact h
  | undefined => exact h
  | jsNull => exact h

theorem mapSet_ne_nil (m : List (String × TriggerConfig)) (k : String) (v : TriggerConfig) :
    mapSet m k v ≠ [] := by
  unfold mapSet
  split
  · rename_i hany
    intro hnil
    rw [List.map_eq_nil_iff] at hnil
    rw [hnil] at hany
    simp at hany
  · simp

theorem unsubscribe_preserves_listenerInvariant (cb : Nat) (s : ManagerState)
    (h : listenerInvariant s) : listenerInvariant (unsubscribe cb s) := by
  unfold listenerInvariant registriesNonempty at h ⊢
  unfold unsubscribe
  dsimp only
  split
  · rename_i hcond
    rw [stop_isRunning, stop_subscribers, stop_oneTimeTriggers]
    dsimp only
    simp only [Bool.and_eq_true, beq_iff_eq, List.length_eq_zero] at hcond
    simp [hcond.1, hcond.2]
  · rename_i hcond
    dsimp only
    rw [h]
    cases ht : s.oneTimeTriggers with
    | cons t ts => simp [ht, List.isEmpty_iff]
    | nil =>
      rw [ht] at hcond
      have hflt : s.subscribers.filter (fun x => x != cb) ≠ [] := by
        intro hnil
        exact hcond (by simp [hnil])
      have hsubs : s.subscribers ≠ [] := by
        intro hnil
        exact hflt (by rw [hnil]; rfl)
      have h1 : s.subscribers.isEmpty = false := by simp [List.isEmpty_iff, hsubs]
      have h2 : (List.filter (fun x => x != cb) s.subscribers).isEmpty = false := by
        simp [List.isEmpty_iff, hflt]
      simp [h1, h2]

theorem addOneTimeTrigger_preserves_listenerInvariant (w : Int) (opts : TriggerOptions)
    (now rand : Nat) (s : ManagerState) (h : listenerInvariant s) :
    listenerInvariant (addOneTimeTrigger w opts now rand s).2.2 := by
  unfold listenerInvariant registriesNonempty at h ⊢
  unfold addOneTimeTrigger
  cases hcb : opts.callback <;> dsimp only <;> try exact h
  rename_i cb
  split
  · rw [start_isRunning, start_subscribers, start_oneTimeTriggers]
    dsimp only
    simp [List.isEmpty_iff, mapSet_ne_nil]
  · rename_i hcond
    dsimp only
    have hne := mapSet_ne_nil s.oneTimeTriggers (makeTriggerId now rand)
      (freshTrigger opts cb)
    cases hrun : s.isRunning with
    | true => simp [List.isEmpty_iff, mapSet_ne_nil]
    | false =>
      exfalso
      rw [hrun] at h
      have hboth : s.subscribers.isEmpty = true ∧ s.oneTimeTriggers.isEmpty = true := by
        cases h1 : s.subscribers.isEmpty <;> cases h2 : s.oneTimeTriggers.isEmpty <;>
          rw [h1, h2] at h <;> simp_all
      simp only [List.isEmpty_iff] at hboth
      apply hcond
      rw [hrun, hboth.1, hboth.2]
      rfl

theorem removeOneTimeTrigger_preserves_listenerInvariant (id : String) (s : ManagerState)
    (h : listenerInvariant s) : listenerInvariant (removeOneTimeTrigger id s) := by
  unfold listenerInvariant registriesNonempty at h ⊢
  unfold removeOneTimeTrigger
  dsimp only
  split
  · rename_i hcond
    rw [stop_isRunning, stop_subscribers, stop_oneTimeTriggers]
    dsimp only
    simp only [Bool.and_eq_true, beq_iff_eq, List.length_eq_zero] at hcond
    simp [hcond.1, hcond.2]
  · rename_i hcond
    dsimp only
    rw [h]
    cases hs : s.subscribers with
    | cons a as => simp [hs, List.isEmpty_iff]
    | nil =>
      rw [hs] at hcond
      have hdel : mapDelete s.oneTimeTriggers id ≠ [] := by
        intro hnil
        exact hcond (by simp [hnil])
      have htrig : s.oneTimeTriggers ≠ [] := by
        intro hnil
        exact hdel (by rw [hnil]; rfl)
      have h1 : s.oneTimeTriggers.isEmpty = false := by simp [List.isEmpty_iff, htrig]
      have h2 : (mapDelete s.oneTimeTriggers id).isEmpty = false := by
        simp [List.isEmpty_iff, hdel]
      simp [h1, h2]

theorem notifySubscribers_isRunning (throws : Nat → Bool) (now : Nat) (s : ManagerState) :
    (notifySubscribers throws now s).1.isRunning = s.isRunning := rfl

theorem notifySubscribers_subscribers (throws : Nat → Bool) (now : Nat) (s : ManagerState) :
    (notifySubscribers throws now s).1.subscribers = s.subscribers := rfl

theorem notifySubscribers_triggers_isEmpty (throws : Nat → Bool) (now : Nat)
    (s : ManagerState) :
    (notifySubscribers throws now s).1.oneTimeTriggers.isEmpty
      = s.oneTimeTriggers.isEmpty := by
  unfold notifySubscribers processOneTimeTriggers detectScrollDirection
  dsimp only
  cases htt : s.oneTimeTriggers <;> simp [htt]

theorem step_preserves_listenerInvariant (throws : Nat → Bool) (s : ManagerState) (e : Event)
    (h : listenerInvariant s) : listenerInvariant (step throws s e).1 := by
  cases e with
  | subscribeEv w v => exact subscribe_preserves_listenerInvariant w v s h
  | unsubscribeEv cb => exact unsubscribe_preserves_listenerInvariant cb s h
  | addTriggerEv w opts now rand =>
    exact addOneTimeTrigger_preserves_listenerInvariant w opts now rand s h
  | removeTriggerEv id => exact removeOneTimeTrigger_preserves_listenerInvariant id s h
  | resetTriggerEv id =>
    unfold listenerInvariant registriesNonempty at h ⊢
    unfold step resetOneTimeTrigger
    dsimp only
    rw [h]
    cases htt : s.oneTimeTriggers <;> simp [htt]
  | resetAllEv =>
    unfold listenerInvariant registriesNonempty at h ⊢
    unfold step resetAllOneTimeTriggers
    dsimp only
    rw [h]
    cases htt : s.oneTimeTriggers <;> simp [htt]
  | rawScroll w =>
    unfold listenerInvariant registriesNonempty at h ⊢
    unfold step
    dsimp only
    split
    · unfold handleScroll
      dsimp only
      split <;> (dsimp only; rw [h]; cases htt : s.oneTimeTriggers <;> simp [htt])
    · exact h
  | frame now =>
    unfold step
    dsimp only
    split
    · unfold listenerInvariant registriesNonempty at h ⊢
      dsimp only
      rw [notifySubscribers_isRunning, notifySubscribers_subscribers,
        notifySubscribers_triggers_isEmpty]
      exact h
    · exact h
  | timerExpire id now =>
    cases hg : mapGet s.oneTimeTriggers id with
    | none => simpa [step, hg] using h
    | some tc =>
      cases hrt : tc.resetTimeout with
      | none => simpa [step, hg, hrt] using h
      | some due =>
        by_cases hle : due ≤ now
        · simp only [step, hg, hrt, if_pos hle]
          unfold listenerInvariant registriesNonempty at h ⊢
          unfold fireResetTimeout
          dsimp only
          rw [h]
          cases htt : s.oneTimeTriggers <;> simp [htt]
        · simpa [step, hg, hrt, hle] using h
  | getScrollPositionEv now =>
    unfold listenerInvariant registriesNonempty at h ⊢
    unfold step getScrollPosition detectScrollDirection
    dsimp only
    exact h

theorem run_preserves_listenerInvariant (throws : Nat → Bool) (events : List Event) :
    ∀ s : ManagerState, listenerInvariant s → listenerInvariant (run throws s events).1 := by
  induction events with
  | nil => intro s h; exact h
  | cons e es ih =>
    intro s h
    unfold run
    dsimp only
    exact ih _ (step_preserves_listenerInvariant throws s e h)

/-- C5: after any sequence of events driving a fresh instance — the public
registry operations in particular — the scroll listener is attached
(`isRunning`) if and only if the combined registries are nonempty: it is
started by the first successful registration of a subscriber or trigger and
stopped exactly when the last of them is removed. -/
theorem C5_listener_running_iff_registries_nonempty (throws : Nat → Bool)
    (events : List Event) :
    (run throws createInstance events).1.isRunning
      = registriesNonempty (run throws createInstance events).1 :=
  run_preserves_listenerInvariant throws events createInstance rfl

theorem triggerIdCallCount_append (id : String) (l1 l2 : List LogEntry) :
    triggerIdCallCount id (l1 ++ l2)
      = triggerIdCallCount id l1 + triggerIdCallCount id l2 := by
  simp [triggerIdCallCount]

theorem processTrigger_requireActualScroll (throws : Nat → Bool) (d : ScrollData)
    (now : Nat) (k : String) (tc : TriggerConfig) :
    (processTrigger throws d now k tc).1.requireActualScroll = tc.requireActualScroll := by
  unfold processTrigger
  dsimp only
  simp only [apply_ite (fun p : TriggerConfig × List LogEntry => p.1.requireActualScroll),
    apply_ite (fun c : TriggerConfig => c.requireActualScroll), ite_self]

theorem processTrigger_hasScrolled (throws : Nat → Bool) (d : ScrollData)
    (now : Nat) (k : String) (tc : TriggerConfig) :
    (processTrigger throws d now k tc).1.hasScrolled = tc.hasScrolled := by
  unfold processTrigger
  dsimp only
  simp only [apply_ite (fun p : TriggerConfig × List LogEntry => p.1.hasScrolled),
    apply_ite (fun c : TriggerConfig => c.hasScrolled), ite_self]

theorem processTrigger_log_of_notScrolled (throws : Nat → Bool) (d : ScrollData)
    (now : Nat) (k : String) (tc : TriggerConfig) (h : tc.hasScrolled = false) :
    (processTrigger throws d now k tc).2 = [] := by
  unfold processTrigger
  dsimp only
  rw [h]
  repeat' split
  all_goals simp_all

theorem triggerIdCallCount_processTrigger_ne (throws : Nat → Bool) (d : ScrollData)
    (now : Nat) (k : String) (tc : TriggerConfig) (id : String) (hne : k ≠ id) :
    triggerIdCallCount id (processTrigger throws d now k tc).2 = 0 := by
  by_cases hf : (!tc.hasTriggered && tc.hasScrolled && (d.direction == tc.direction) : Bool) <;>
    by_cases hth : throws tc.callback <;>
      simp [processTrigger, triggerIdCallCount, hf, hth, hne]

theorem triggerIdCallCount_subLog (id : String) (throws : Nat → Bool) (d : ScrollData)
    (subs : List Nat) :
    triggerIdCallCount id ((subs.map (fun cb =>
        if throws cb then [LogEntry.subCall cb d, LogEntry.subError cb]
        else [LogEntry.subCall cb d])).flatten) = 0 := by
  induction subs with
  | nil => rfl
  | cons c cs ih =>
    rw [List.map_cons, List.flatten_cons, triggerIdCallCount_append, ih]
    by_cases hc : throws c <;> simp [hc, triggerIdCallCount]

theorem triggerIdCallCount_triggerLogs (throws : Nat → Bool) (d : ScrollData) (now : Nat)
    (id : String) (m : List (String × TriggerConfig))
    (hg : ∀ e ∈ m, e.1 = id → e.2.hasScrolled = false) :
    triggerIdCallCount id
      ((m.map (fun e => (processTrigger throws d now e.1 e.2).2)).flatten) = 0 := by
  induction m with
  | nil => rfl
  | cons e es ih =>
    rw [List.map_cons, List.flatten_cons, triggerIdCallCount_append]
    rw [ih (fun e' he' => hg e' (List.mem_cons_of_mem e he'))]
    by_cases hk : e.1 = id
    · rw [processTrigger_log_of_notScrolled throws d now e.1 e.2 (hg e (by simp) hk)]
      rfl
    · rw [triggerIdCallCount_processTrigger_ne throws d now e.1 e.2 id hk]

theorem unscrolledGateL_map (id : String) (m : List (String × TriggerConfig))
    (g : String × TriggerConfig → String × TriggerConfig)
    (hkey : ∀ e, (g e).1 = e.1)
    (hfld : ∀ e, (g e).2.requireActualScroll = e.2.requireActualScroll
      ∧ (g e).2.hasScrolled = e.2.hasScrolled)
    (hg : unscrolledGateL id m) : unscrolledGateL id (m.map g) := by
  intro e he hk
  obtain ⟨e0, he0, heq⟩ := List.mem_map.mp he
  rw [← heq] at hk ⊢
  rw [hkey] at hk
  obtain ⟨h1, h2⟩ := hg e0 he0 hk
  rw [(hfld e0).1, (hfld e0).2]
  exact ⟨h1, h2⟩

theorem unscrolledGateL_mapSet_ne (m : List (String × TriggerConfig)) (k : String)
    (v : TriggerConfig) (id : String) (hne : k ≠ id) (hg : unscrolledGateL id m) :
    unscrolledGateL id (mapSet m k v) := by
  intro e he hk
  unfold mapSet at he
  split at he
  · obtain ⟨e0, he0, heq⟩ := List.mem_map.mp he
    by_cases h0 : (e0.1 == k : Bool)
    · rw [if_pos h0] at heq
      rw [← heq] at hk
      exact absurd hk hne
    · rw [if_neg h0] at heq
      rw [← heq] at hk ⊢
      exact hg e0 he0 hk
  · rcases List.mem_append.mp he with h1 | h2
    · exact hg e h1 hk
    · rw [List.mem_singleton] at h2
      rw [h2] at hk
      exact absurd hk hne

theorem unscrolledGateL_mapSet_self (m : List (String × TriggerConfig)) (k : String)
    (v : TriggerConfig)
    (hv : v.requireActualScroll = true ∧ v.hasScrolled = false) :
    unscrolledGateL k (mapSet m k v) := by
  intro e he hk0
  unfold mapSet at he
  split at he
  · obtain ⟨e0, he0, heq⟩ := List.mem_map.mp he
    by_cases h0 : (e0.1 == k : Bool)
    · rw [if_pos h0] at heq
      rw [← heq]
      exact hv
    · rw [if_neg h0] at heq
      rw [heq] at h0
      exact absurd hk0 (by simpa using h0)
  · rename_i hany
    rcases List.mem_append.mp he with h1 | h2
    · exact absurd (List.any_eq_true.mpr ⟨e, h1, by simp [hk0]⟩) hany
    · rw [List.mem_singleton] at h2
      rw [h2]
      exact hv

theorem subscribe_oneTimeTriggers (w : Int) (v : JSValue) (s : ManagerState) :
    (subscribe w v s).2.2.oneTimeTriggers = s.oneTimeTriggers := by
  cases v with
  | func cb =>
    unfold subscribe
    dsimp only
    split <;> split <;> (try rw [start_oneTimeTriggers]) <;> rfl
  | num n => rfl
  | str t => rfl
  | jsBool b => rfl
  | undefined => rfl
  | jsNull => rfl

theorem unsubscribe_oneTimeTriggers (cb : Nat) (s : ManagerState) :
    (unsubscribe cb s).oneTimeTriggers = s.oneTimeTriggers := by
  unfold unsubscribe
  dsimp only
  split
  · rw [stop_oneTimeTriggers]
  · rfl

theorem removeOneTimeTrigger_triggers (k : String) (s : ManagerState) :
    (removeOneTimeTrigger k s).oneTimeTriggers = mapDelete s.oneTimeTriggers k := by
  unfold removeOneTimeTrigger
  dsimp only
  split
  · rw [stop_oneTimeTriggers]
  · rfl

theorem notifySubscribers_triggers (throws : Nat → Bool) (now : Nat) (s : ManagerState) :
    (notifySubscribers throws now s).1.oneTimeTriggers
      = s.oneTimeTriggers.map (fun e =>
          (e.1, (processTrigger throws (sampleAt now s) now e.1 e.2).1)) := by
  unfold notifySubscribers processOneTimeTriggers
  dsimp only
  rw [List.map_map]
  rfl

theorem notifySubscribers_log (throws : Nat → Bool) (now : Nat) (s : ManagerState) :
    (notifySubscribers throws now s).2
      = ((s.subscribers.map (fun cb =>
            if throws cb then [LogEntry.subCall cb (sampleAt now s), LogEntry.subError cb]
            else [LogEntry.subCall cb (sampleAt now s)])).flatten)
        ++ ((s.oneTimeTriggers.map (fun e =>
            (processTrigger throws (sampleAt now s) now e.1 e.2).2)).flatten) := by
  unfold notifySubscribers processOneTimeTriggers
  dsimp only
  rw [List.map_map]
  rfl

theorem addOneTimeTrigger_invalid (w : Int) (opts : TriggerOptions) (now rand : Nat)
    (s : ManagerState) (hc : opts.callback.isFunctionV = false) :
    addOneTimeTrigger w opts now rand s
      = (none, [LogEntry.warn "Trigger callback must be a function"], s) := by
  cases hcb : opts.callback with
  | func cb => rw [hcb] at hc; simp [JSValue.isFunctionV] at hc
  | num n => simp only [addOneTimeTrigger, hcb]
  | str t => simp only [addOneTimeTrigger, hcb]
  | jsBool b => simp only [addOneTimeTrigger, hcb]
  | undefined => simp only [addOneTimeTrigger, hcb]
  | jsNull => simp only [addOneTimeTrigger, hcb]

theorem step_addTrigger_invalid (throws : Nat → Bool) (w : Int) (opts : TriggerOptions)
    (now rand : Nat) (s : ManagerState) (id : String)
    (heq : addOneTimeTrigger w opts now rand s
      = (none, [LogEntry.warn "Trigger callback must be a function"], s))
    (hg : unscrolledGate id s) :
    unscrolledGate id (step throws s (Event.addTriggerEv w opts now rand)).1
      ∧ triggerIdCallCount id (step throws s (Event.addTriggerEv w opts now rand)).2 = 0 := by
  refine ⟨?_, ?_⟩
  · intro e' he' hk
    have h1 : (step throws s (Event.addTriggerEv w opts now rand)).1 = s := by
      show (addOneTimeTrigger w opts now rand s).2.2 = s
      rw [heq]
    rw [h1] at he'
    exact hg e' he' hk
  · show triggerIdCallCount id (addOneTimeTrigger w opts now rand s).2.1 = 0
    rw [heq]
    rfl

theorem step_keeps_unscrolledGate (throws : Nat → Bool) (s : ManagerState) (e : Event)
    (id : String) (hg : unscrolledGate id s) (he : eventKeepsUnscrolled id e) :
    unscrolledGate id (step throws s e).1
      ∧ triggerIdCallCount id (step throws s e).2 = 0 := by
  cases e with
  | subscribeEv w v =>
    refine ⟨?_, ?_⟩
    · intro e' he' hk
      rw [show (step throws s (Event.subscribeEv w v)).1.oneTimeTriggers
          = s.oneTimeTriggers from subscribe_oneTimeTriggers w v s] at he'
      exact hg e' he' hk
    · cases v <;> rfl
  | unsubscribeEv cb =>
    refine ⟨?_, rfl⟩
    intro e' he' hk
    rw [show (step throws s (Event.unsubscribeEv cb)).1.oneTimeTriggers
        = s.oneTimeTriggers from unsubscribe_oneTimeTriggers cb s] at he'
    exact hg e' he' hk
  | addTriggerEv w opts now rand =>
    have hne : makeTriggerId now rand ≠ id := he
    cases hcb : opts.callback with
    | func cb =>
      refine ⟨?_, ?_⟩
      · have htr : (step throws s (Event.addTriggerEv w opts now rand)).1.oneTimeTriggers
            = mapSet s.oneTimeTriggers (makeTriggerId now rand) (freshTrigger opts cb) := by
          show (addOneTimeTrigger w opts now rand s).2.2.oneTimeTriggers = _
          simp only [addOneTimeTrigger, hcb]
          split
          · rw [start_oneTimeTriggers]; rfl
          · rfl
        intro e' he' hk
        rw [htr] at he'
        exact unscrolledGateL_mapSet_ne s.oneTimeTriggers (makeTriggerId now rand)
          (freshTrigger opts cb) id hne hg e' he' hk
      · show triggerIdCallCount id (addOneTimeTrigger w opts now rand s).2.1 = 0
        simp only [addOneTimeTrigger, hcb]
        rfl
    | num n =>
      exact step_addTrigger_invalid throws w opts now rand s id
        (addOneTimeTrigger_invalid w opts now rand s (by rw [hcb]; rfl)) hg
    | str t =>
      exact step_addTrigger_invalid throws w opts now rand s id
        (addOneTimeTrigger_invalid w opts now rand s (by rw [hcb]; rfl)) hg
    | jsBool b =>
      exact step_addTrigger_invalid throws w opts now rand s id
        (addOneTimeTrigger_invalid w opts now rand s (by rw [hcb]; rfl)) hg
    | undefined =>
      exact step_addTrigger_invalid throws w opts now rand s id
        (addOneTimeTrigger_invalid w opts now rand s (by rw [hcb]; rfl)) hg
    | jsNull =>
      exact step_addTrigger_invalid throws w opts now rand s id
        (addOneTimeTrigger_invalid w opts now rand s (by rw [hcb]; rfl)) hg
  | removeTriggerEv rid =>
    refine ⟨?_, rfl⟩
    intro e' he' hk
    rw [show (step throws s (Event.removeTriggerEv rid)).1.oneTimeTriggers
        = mapDelete s.oneTimeTriggers rid from removeOneTimeTrigger_triggers rid s] at he'
    exact hg e' (List.mem_filter.mp he').1 hk
  | resetTriggerEv rid =>
    refine ⟨?_, rfl⟩
    have := unscrolledGateL_map id s.oneTimeTriggers
      (fun e => if e.1 == rid then
          (e.1, { e.2 with hasTriggered := false, resetTimeout := none }) else e)
      (fun e => by dsimp only; split <;> rfl)
      (fun e => by dsimp only; split <;> exact ⟨rfl, rfl⟩)
      hg
    exact this
  | resetAllEv =>
    refine ⟨?_, rfl⟩
    exact unscrolledGateL_map id s.oneTimeTriggers
      (fun e => (e.1, { e.2 with hasTriggered := false, resetTimeout := none }))
      (fun e => rfl) (fun e => ⟨rfl, rfl⟩) hg
  | rawScroll w => exact he.elim
  | frame now =>
    unfold step
    dsimp only
    split
    · refine ⟨?_, ?_⟩
      · intro e' he' hk
        have he'' : e' ∈ (notifySubscribers throws now s).1.oneTimeTriggers := he'
        rw [notifySubscribers_triggers] at he''
        exact unscrolledGateL_map id s.oneTimeTriggers
          (fun e => (e.1, (processTrigger throws (sampleAt now s) now e.1 e.2).1))
          (fun e => rfl)
          (fun e => by
            exact ⟨processTrigger_requireActualScroll throws (sampleAt now s) now e.1 e.2,
              processTrigger_hasScrolled throws (sampleAt now s) now e.1 e.2⟩)
          hg e' he'' hk
      · rw [notifySubscribers_log, triggerIdCallCount_append, triggerIdCallCount_subLog,
          triggerIdCallCount_triggerLogs throws (sampleAt now s) now id s.oneTimeTriggers
            (fun e he hk => (hg e he hk).2)]
    · exact ⟨hg, rfl⟩
  | timerExpire rid now =>
    cases hgm : mapGet s.oneTimeTriggers rid with
    | none => exact ⟨by simpa [step, hgm] using hg, by simp [step, hgm, triggerIdCallCount]⟩
    | some tc =>
      cases hrt : tc.resetTimeout with
      | none => exact ⟨by simpa [step, hgm, hrt] using hg, by simp [step, hgm, hrt, triggerIdCallCount]⟩
      | some due =>
        by_cases hle : due ≤ now
        · refine ⟨?_, by simp [step, hgm, hrt, hle, triggerIdCallCount]⟩
          intro e' he' hk
          have he'' : e' ∈ (fireResetTimeout rid now s).oneTimeTriggers := by
            simpa [step, hgm, hrt, hle] using he'
          unfold fireResetTimeout at he''
          exact unscrolledGateL_map id s.oneTimeTriggers
            (fun e => if e.1 == rid then (e.1, { e.2 with hasTriggered := false, lastReset := now, resetTimeout := none }) else e)
            (fun e => by dsimp only; split <;> rfl)
            (fun e => by dsimp only; split <;> exact ⟨rfl, rfl⟩)
            hg e' he'' hk
        · exact ⟨by simpa [step, hgm, hrt, hle] using hg,
            by simp [step, hgm, hrt, hle, triggerIdCallCount]⟩
  | getScrollPositionEv now =>
    refine ⟨?_, rfl⟩
    intro e' he' hk
    exact hg e' he' hk

theorem run_keeps_unscrolledGate (throws : Nat → Bool) (id : String) :
    ∀ (events : List Event) (s : ManagerState), unscrolledGate id s →
      (∀ e ∈ events, eventKeepsUnscrolled id e) →
      unscrolledGate id (run throws s events).1
        ∧ triggerIdCallCount id (run throws s events).2 = 0 := by
  intro events
  induction events with
  | nil => exact fun s hg _ => ⟨hg, rfl⟩
  | cons e es ih =>
    intro s hg hev
    have hstep := step_keeps_unscrolledGate throws s e id hg (hev e (by simp))
    have hrest := ih (step throws s e).1 hstep.1 (fun e' he' => hev e' (by simp [he']))
    unfold run
    dsimp only
    exact ⟨hrest.1, by rw [triggerIdCallCount_append, hstep.2, hrest.2]⟩

/-- C6: a trigger registered with `requireActualScroll = true` never has its
callback invoked before a raw scroll event is observed after its
registration: over any event sequence containing no raw scroll event (and no
registration colliding with its id), the trigger's invocation count stays 0 —
whatever notifications run and whatever direction their samples carry. -/
theorem C6_requireActualScroll_gates_firing (throws : Nat → Bool) (w : Int)
    (opts : TriggerOptions) (now rand : Nat) (s : ManagerState) (cb : Nat)
    (events : List Event)
    (hcb : opts.callback = JSValue.func cb)
    (hreq : opts.requireActualScroll.getD true = true)
    (hev : ∀ e ∈ events, eventKeepsUnscrolled (makeTriggerId now rand) e) :
    triggerIdCallCount (makeTriggerId now rand)
      (run throws (addOneTimeTrigger w opts now rand s).2.2 events).2 = 0 := by
  have htr : (addOneTimeTrigger w opts now rand s).2.2.oneTimeTriggers
      = mapSet s.oneTimeTriggers (makeTriggerId now rand) (freshTrigger opts cb) := by
    simp only [addOneTimeTrigger, hcb]
    split
    · rw [start_oneTimeTriggers]; rfl
    · rfl
  have hgate : unscrolledGate (makeTriggerId now rand)
      (addOneTimeTrigger w opts now rand s).2.2 := by
    unfold unscrolledGate
    rw [htr]
    exact unscrolledGateL_mapSet_self _ _ _
      ⟨by simp [freshTrigger, hreq], by simp [freshTrigger, hreq]⟩
  exact (run_keeps_unscrolledGate throws (makeTriggerId now rand) events _ hgate hev).2

/-- Witness for C6: a freshly registered default trigger (which requires an
actual scroll) is not invoked by a frame notification that follows with no
raw scroll event in between. -/
theorem C6_requireActualScroll_gates_firing_witness :
    triggerIdCallCount (makeTriggerId 2 3)
      (run noThrow (addOneTimeTrigger 0 defaultOpts 2 3 createInstance).2.2
        [Event.frame 10, Event.getScrollPositionEv 11]).2 = 0 :=
  C6_requireActualScroll_gates_firing noThrow 0 defaultOpts 2 3 createInstance 5
    [Event.frame 10, Event.getScrollPositionEv 11] rfl rfl
    (by
      intro e he
      rcases List.mem_cons.mp he with h1 | he2
      · rw [h1]; exact trivial
      · rcases List.mem_cons.mp he2 with h2 | he3
        · rw [h2]; exact trivial
        · cases he3)

theorem handleScroll_isRunning (w : Int) (s : ManagerState) :
    (handleScroll w s).isRunning = s.isRunning := by
  unfold handleScroll
  dsimp only
  split <;> rfl

theorem handleScroll_subscribers (w : Int) (s : ManagerState) :
    (handleScroll w s).subscribers = s.subscribers := by
  unfold handleScroll
  dsimp only
  split <;> rfl

theorem handleScroll_lastScrollY (w : Int) (s : ManagerState) :
    (handleScroll w s).lastScrollY = s.lastScrollY := by
  unfold handleScroll
  dsimp only
  split <;> rfl

theorem handleScroll_scrollY (w : Int) (s : ManagerState) :
    (handleScroll w s).scrollY = w := by
  unfold handleScroll
  dsimp only
  split <;> rfl

theorem handleScroll_ticking (w : Int) (s : ManagerState) :
    (handleScroll w s).ticking = true := by
  unfold handleScroll
  dsimp only
  split
  · rfl
  · rename_i h
    simpa using h

theorem run_rawScrolls (throws : Nat → Bool) (ps : List Int) :
    ∀ s : ManagerState, s.isRunning = true →
      run throws s (ps.map Event.rawScroll)
        = (ps.foldl (fun t q => handleScroll q t) s, []) := by
  induction ps with
  | nil => intro s _; rfl
  | cons q qs ih =>
    intro s h
    rw [List.map_cons]
    unfold run
    dsimp only
    have hstep : step throws s (Event.rawScroll q) = (handleScroll q s, []) := by
      unfold step
      dsimp only
      rw [if_pos h]
    rw [hstep, ih (handleScroll q s) (by rw [handleScroll_isRunning, h]), List.foldl_cons]
    rfl

theorem foldl_handleScroll_fields (ps : List Int) :
    ∀ s : ManagerState,
      (ps.foldl (fun t q => handleScroll q t) s).subscribers = s.subscribers
      ∧ (ps.foldl (fun t q => handleScroll q t) s).lastScrollY = s.lastScrollY
      ∧ (ps.foldl (fun t q => handleScroll q t) s).isRunning = s.isRunning := by
  induction ps with
  | nil => exact fun s => ⟨rfl, rfl, rfl⟩
  | cons q qs ih =>
    intro s
    rw [List.foldl_cons]
    refine ⟨?_, ?_, ?_⟩
    · rw [(ih (handleScroll q s)).1, handleScroll_subscribers]
    · rw [(ih (handleScroll q s)).2.1, handleScroll_lastScrollY]
    · rw [(ih (handleScroll q s)).2.2, handleScroll_isRunning]

theorem subCallCount_append (cb : Nat) (l1 l2 : List LogEntry) :
    subCallCount cb (l1 ++ l2) = subCallCount cb l1 + subCallCount cb l2 := by
  simp [subCallCount]

theorem subCallCount_subLog (cb : Nat) (throws : Nat → Bool) (d : ScrollData)
    (subs : List Nat) :
    subCallCount cb ((subs.map (fun c =>
        if throws c then [LogEntry.subCall c d, LogEntry.subError c]
        else [LogEntry.subCall c d])).flatten) = subs.count cb := by
  induction subs with
  | nil => rfl
  | cons c cs ih =>
    rw [List.map_cons, List.flatten_cons, subCallCount_append, ih, List.count_cons]
    by_cases hc : throws c <;> by_cases hcb : (c == cb : Bool) <;>
      simp [subCallCount, hc, hcb] <;> omega

theorem subCallCount_processTrigger (cb : Nat) (throws : Nat → Bool) (d : ScrollData)
    (now : Nat) (k : String) (tc : TriggerConfig) :
    subCallCount cb (processTrigger throws d now k tc).2 = 0 := by
  by_cases hf : (!tc.hasTriggered && tc.hasScrolled && (d.direction == tc.direction) : Bool) <;>
    by_cases hth : throws tc.callback <;>
      simp [processTrigger, subCallCount, hf, hth]

theorem subCallCount_triggerLogs (cb : Nat) (throws : Nat → Bool) (d : ScrollData)
    (now : Nat) (m : List (String × TriggerConfig)) :
    subCallCount cb ((m.map (fun e => (processTrigger throws d now e.1 e.2).2)).flatten)
      = 0 := by
  induction m with
  | nil => rfl
  | cons e es ih =>
    rw [List.map_cons, List.flatten_cons, subCallCount_append, ih,
      subCallCount_processTrigger]

theorem subCallCount_notify (throws : Nat → Bool) (now : Nat) (s : ManagerState) (cb : Nat)
    (hnd : s.subscribers.Nodup) (hm : cb ∈ s.subscribers) :
    subCallCount cb (notifySubscribers throws now s).2 = 1 := by
  rw [notifySubscribers_log, subCallCount_append, subCallCount_subLog,
    subCallCount_triggerLogs, List.count_eq_one_of_mem hnd hm]

theorem notify_subCall_sample (throws : Nat → Bool) (now : Nat) (s : ManagerState)
    (cb : Nat) (d : ScrollData)
    (hmem : LogEntry.subCall cb d ∈ (notifySubscribers throws now s).2) :
    d = sampleAt now s := by
  rw [notifySubscribers_log] at hmem
  rcases List.mem_append.mp hmem with h1 | h2
  · obtain ⟨l, hl, hd⟩ := List.mem_flatten.mp h1
    obtain ⟨c, hc, rfl⟩ := List.mem_map.mp hl
    by_cases hth : throws c <;> simp [hth] at hd
    · exact hd.2
    · exact hd.2
  · obtain ⟨l, hl, hd⟩ := List.mem_flatten.mp h2
    obtain ⟨e0, he0, rfl⟩ := List.mem_map.mp hl
    have hcnt := subCallCount_processTrigger cb throws (sampleAt now s) now e0.1 e0.2
    unfold subCallCount at hcnt
    rw [List.length_eq_zero] at hcnt
    have : LogEntry.subCall cb d ∈ List.filter (fun e => match e with
        | LogEntry.subCall c _ => c == cb
        | _ => false) (processTrigger throws (sampleAt now s) now e0.1 e0.2).2 :=
      List.mem_filter.mpr ⟨hd, by simp⟩
    rw [hcnt] at this
    exact absurd this (List.not_mem_nil _)

/-- C2: any two or more raw scroll events that all arrive before the scheduled
frame callback produce no deliveries themselves; when the frame callback runs,
every persistent subscriber is notified exactly once, and every delivered
sample carries the final raw position with the direction computed against the
position recorded at the previous notification (`s.lastScrollY`), not against
the previous raw event. -/
theorem C2_raw_events_coalesce (throws : Nat → Bool) (s : ManagerState) (ps : List Int)
    (p : Int) (now : Nat)
    (hRun : s.isRunning = true) (hPs : ps ≠ []) (hNodup : s.subscribers.Nodup) :
    (run throws s ((ps ++ [p]).map Event.rawScroll)).2 = []
    ∧ (∀ cb ∈ s.subscribers,
        subCallCount cb
          (step throws (run throws s ((ps ++ [p]).map Event.rawScroll)).1
            (Event.frame now)).2 = 1)
    ∧ (∀ cb d,
        LogEntry.subCall cb d
            ∈ (step throws (run throws s ((ps ++ [p]).map Event.rawScroll)).1
              (Event.frame now)).2 →
        d = expectedSample p s.lastScrollY now) := by
  have hrun := run_rawScrolls throws (ps ++ [p]) s hRun
  have hfold : (ps ++ [p]).foldl (fun t q => handleScroll q t) s
      = handleScroll p (ps.foldl (fun t q => handleScroll q t) s) := by
    rw [List.foldl_append]
    rfl
  have h1 : (run throws s ((ps ++ [p]).map Event.rawScroll)).1
      = handleScroll p (ps.foldl (fun t q => handleScroll q t) s) := by
    rw [hrun, hfold]
  have hfields := foldl_handleScroll_fields ps s
  have hsub1 : (handleScroll p (ps.foldl (fun t q => handleScroll q t) s)).subscribers
      = s.subscribers := by
    rw [handleScroll_subscribers, hfields.1]
  have hframe : step throws (run throws s ((ps ++ [p]).map Event.rawScroll)).1
        (Event.frame now)
      = ({ (notifySubscribers throws now
            (handleScroll p (ps.foldl (fun t q => handleScroll q t) s))).1
            with ticking := false },
         (notifySubscribers throws now
            (handleScroll p (ps.foldl (fun t q => handleScroll q t) s))).2) := by
    rw [h1]
    unfold step
    dsimp only
    rw [if_pos (handleScroll_ticking p (ps.foldl (fun t q => handleScroll q t) s))]
  have hsample : sampleAt now (handleScroll p (ps.foldl (fun t q => handleScroll q t) s))
      = expectedSample p s.lastScrollY now := by
    unfold sampleAt expectedSample detectScrollDirection
    simp only [handleScroll_scrollY, handleScroll_lastScrollY, hfields.2.1]
  refine ⟨?_, ?_, ?_⟩
  · rw [hrun]
  · intro cb hcb
    rw [hframe]
    exact subCallCount_notify throws now _ cb (by rw [hsub1]; exact hNodup)
      (by rw [hsub1]; exact hcb)
  · intro cb d hmem
    rw [hframe] at hmem
    have := notify_subCall_sample throws now _ cb d hmem
    rw [this, hsample]

/-- Witness for C2: two raw scroll events (to 4, then 9) before one frame with
two registered subscribers; no deliveries during the raw events and exactly
one notification for subscriber 1. -/
theorem C2_raw_events_coalesce_witness :
    (run noThrow twoSubscriberState (([4] ++ [9]).map Event.rawScroll)).2 = []
    ∧ subCallCount 1
        (step noThrow
          (run noThrow twoSubscriberState (([4] ++ [9]).map Event.rawScroll)).1
          (Event.frame 7)).2 = 1 :=
  ⟨(C2_raw_events_coalesce noThrow twoSubscriberState [4] 9 7 (by decide) (by decide)
      (by decide)).1,
   (C2_raw_events_coalesce noThrow twoSubscriberState [4] 9 7 (by decide) (by decide)
      (by decide)).2.1 1 (by decide)⟩

theorem subscribe_subscribers (w : Int) (cb : Nat) (s : ManagerState) :
    (subscribe w (JSValue.func cb) s).2.2.subscribers
      = if s.subscribers.contains cb then s.subscribers else s.subscribers ++ [cb] := by
  unfold subscribe
  dsimp only
  split <;> split <;> (try rw [start_subscribers]) <;> rfl

theorem unsubscribe_subscribers (cb : Nat) (t : ManagerState) :
    (unsubscribe cb t).subscribers = t.subscribers.filter (fun x => x != cb) := by
  unfold unsubscribe
  dsimp only
  split
  · rw [stop_subscribers]
  · rfl

theorem subscribe_fst (w : Int) (cb : Nat) (s : ManagerState) :
    (subscribe w (JSValue.func cb) s).1 = UnsubResult.unsub cb := rfl

theorem subscribe_isRunning_of_cond (w : Int) (cb : Nat) (s : ManagerState) :
    (((subscribe w (JSValue.func cb) s).2.2).subscribers.length == 1
        && ((subscribe w (JSValue.func cb) s).2.2).oneTimeTriggers.length == 0) = true →
    ((subscribe w (JSValue.func cb) s).2.2).isRunning = true := by
  unfold subscribe
  dsimp only
  intro h
  by_cases hcond : (((if s.subscribers.contains cb = true then s.subscribers
      else s.subscribers ++ [cb]).length == 1 && s.oneTimeTriggers.length == 0) : Bool)
  · rw [if_pos hcond]
    exact start_isRunning _ _
  · rw [if_neg hcond] at h ⊢
    exact absurd h hcond

theorem subscribe_contains (w : Int) (cb : Nat) (s : ManagerState) :
    ((subscribe w (JSValue.func cb) s).2.2).subscribers.contains cb = true := by
  rw [subscribe_subscribers]
  split
  · assumption
  · simp

theorem subscribe_noop_of_contains (w2 : Int) (cb : Nat) (t : ManagerState)
    (hc : t.subscribers.contains cb = true)
    (hrun : (t.subscribers.length == 1 && t.oneTimeTriggers.length == 0) = true →
      t.isRunning = true) :
    subscribe w2 (JSValue.func cb) t = (UnsubResult.unsub cb, [], t) := by
  unfold subscribe
  dsimp only
  rw [if_pos hc]
  simp only [Prod.mk.injEq]
  refine ⟨trivial, trivial, ?_⟩
  split
  · rename_i hcond
    unfold start
    rw [if_pos (hrun hcond)]
  · rfl

/-- C10: subscribing the same callback reference twice is idempotent — the
second `subscribe` returns the whole state unchanged and hands back an
unsubscribe function with the same effect; the registry holds a single entry
for the callback, a notification pass invokes it exactly once, and one
`unsubscribe` (via either returned function) removes it entirely. -/
theorem C10_subscribe_idempotent (w w2 : Int) (cb : Nat) (s : ManagerState)
    (throws : Nat → Bool) (now : Nat) (hNodup : s.subscribers.Nodup) :
    (subscribe w2 (JSValue.func cb) (subscribe w (JSValue.func cb) s).2.2).2.2
      = (subscribe w (JSValue.func cb) s).2.2
    ∧ (subscribe w (JSValue.func cb) s).2.2.subscribers.count cb = 1
    ∧ (subscribe w (JSValue.func cb) s).1 = UnsubResult.unsub cb
    ∧ (subscribe w2 (JSValue.func cb) (subscribe w (JSValue.func cb) s).2.2).1
      = UnsubResult.unsub cb
    ∧ subCallCount cb
        (notifySubscribers throws now (subscribe w (JSValue.func cb) s).2.2).2 = 1
    ∧ (applyUnsub (subscribe w (JSValue.func cb) s).1
        (subscribe w (JSValue.func cb) s).2.2).subscribers.count cb = 0 := by
  have hnd1 : (subscribe w (JSValue.func cb) s).2.2.subscribers.Nodup := by
    rw [subscribe_subscribers]
    split
    · exact hNodup
    · rename_i hc
      have : cb ∉ s.subscribers := by simpa using hc
      simp [List.nodup_append, hNodup, this]
  have hmem1 : cb ∈ (subscribe w (JSValue.func cb) s).2.2.subscribers := by
    have := subscribe_contains w cb s
    simpa using this
  refine ⟨?_, ?_, rfl, rfl, ?_, ?_⟩
  · rw [subscribe_noop_of_contains w2 cb _ (subscribe_contains w cb s)
      (subscribe_isRunning_of_cond w cb s)]
  · exact List.count_eq_one_of_mem hnd1 hmem1
  · exact subCallCount_notify throws now _ cb hnd1 hmem1
  · rw [subscribe_fst]
    show (unsubscribe cb _).subscribers.count cb = 0
    rw [unsubscribe_subscribers]
    refine List.count_eq_zero.mpr ?_
    intro hmem
    have := (List.mem_filter.mp hmem).2
    simp at this

/-- Witness for C10 at a concrete state: subscribing callback 2 twice to a
state already holding it keeps one registry entry and one delivery per pass. -/
theorem C10_subscribe_idempotent_witness :
    (subscribe 0 (JSValue.func 2) (subscribe 0 (JSValue.func 2) twoSubscriberState).2.2).2.2
      = (subscribe 0 (JSValue.func 2) twoSubscriberState).2.2
    ∧ (subscribe 0 (JSValue.func 2) twoSubscriberState).2.2.subscribers.count 2 = 1 :=
  ⟨(C10_subscribe_idempotent 0 0 2 twoSubscriberState noThrow 5 (by decide)).1,
   (C10_subscribe_idempotent 0 0 2 twoSubscriberState noThrow 5 (by decide)).2.1⟩

end Polyx
